import Mathlib

/-
  Verification of the feature-derivation and dataset-assembly pipeline of the
  Supply_Chain_Optimization repository.

  Shallow embedding conventions:
  * a dataframe column is a `List` of values; numeric cells are `ℚ` (or `ℝ`
    for the scaler, whose standard deviation needs a real square root);
  * `pd.cut` with `bins=[0, 0.33, 0.66, 1.0]` and default `right=True`,
    `include_lowest=False` is embedded as a function into `Option String`
    (`none` models the NaN produced for values outside the bins);
  * dates are triples (year, month, day) mapped to an ordinal day count,
    so a timedelta in days is a difference of ordinals;
  * `LabelEncoder.fit_transform` maps each value to its position in the
    sorted list of the column's distinct values (numpy `unique` semantics);
  * fallible operations (pandas `drop`, the enrichment run) return `Except`.
-/

namespace SupplyChain

/-! ## Calendar arithmetic (data_cleaning_new.py, sections 2-3) -/

/-- A naive calendar date, as parsed by `pd.to_datetime`. -/
structure Date where
  year : ℕ
  month : ℕ
  day : ℕ
deriving DecidableEq

/-- Gregorian leap-year test. -/
def isLeap (y : ℕ) : Bool :=
  (y % 4 == 0 && y % 100 != 0) || y % 400 == 0

/-- Days elapsed before month `m` in a year (1-based month). -/
def daysBeforeMonth (leap : Bool) (m : ℕ) : ℕ :=
  let base := [0, 31, 59, 90, 120, 151, 181, 212, 243, 273, 304, 334]
  let d := base.getD (m - 1) 0
  if leap && m > 2 then d + 1 else d

/-- Ordinal day number of a date (proleptic Gregorian, day 1 = 0001-01-01). -/
def dateOrdinal (d : Date) : ℕ :=
  365 * (d.year - 1) + (d.year - 1) / 4 - (d.year - 1) / 100 + (d.year - 1) / 400
    + daysBeforeMonth (isLeap d.year) d.month + d.day

/-- Whole-day difference between two dates (timedelta `.dt.days`). -/
def daysBetween (a b : Date) : ℤ :=
  (dateOrdinal b : ℤ) - (dateOrdinal a : ℤ)

/-- `Planned_Transit_Days = (Estimated_Arrival_Date - Shipment_Date).dt.days`. -/
def Planned_Transit_Days (ship est : Date) : ℤ := daysBetween ship est

/-- `Actual_Transit_Days = (Actual_Arrival_Date - Shipment_Date).dt.days`. -/
def Actual_Transit_Days (ship act : Date) : ℤ := daysBetween ship act

/-- `Arrival_Delay_Days = (Actual_Arrival_Date - Estimated_Arrival_Date).dt.days`. -/
def Arrival_Delay_Days (est act : Date) : ℤ := daysBetween est act

/-! ## Compliance and risk features (data_cleaning_new.py, section 4) -/

/-- `Has_Prior_Offense = (Prior_Offense_Count > 0).astype(int)`. -/
def Has_Prior_Offense (priorOffenseCount : ℚ) : ℤ :=
  if 0 < priorOffenseCount then 1 else 0

/-- `Compliance_Risk_Score = (1 - Compliance_Score) + Prior_Offense_Count * 0.3`. -/
def Compliance_Risk_Score (complianceScore priorOffenseCount : ℚ) : ℚ :=
  (1 - complianceScore) + priorOffenseCount * (3 / 10)

/-- `Document_Issue = Document_Status.isin(['Missing', 'Error']).astype(int)`. -/
def Document_Issue (documentStatus : String) : ℤ :=
  if documentStatus ∈ (["Missing", "Error"] : List String) then 1 else 0

/-- `Route_Risk_Level = pd.cut(Route_Risk_Index, bins=[0, 0.33, 0.66, 1.0],
labels=['Low', 'Medium', 'High'])`.  With pandas defaults (`right=True`,
`include_lowest=False`) the bins are the right-closed intervals
(0, 0.33], (0.33, 0.66], (0.66, 1.0]; a value in no bin becomes NaN (`none`). -/
def Route_Risk_Level (routeRiskIndex : ℚ) : Option String :=
  if 0 < routeRiskIndex ∧ routeRiskIndex ≤ 33 / 100 then some "Low"
  else if 33 / 100 < routeRiskIndex ∧ routeRiskIndex ≤ 66 / 100 then some "Medium"
  else if 66 / 100 < routeRiskIndex ∧ routeRiskIndex ≤ 1 then some "High"
  else none

/-! ## Standard scaling of numeric columns
(data_cleaning_new.py, section 7)

The script calls `StandardScaler().fit_transform(df[numeric_cols])`, whose
implementation lives in the sklearn library, outside this repository. -/

noncomputable section

/-- Modelled from the spec: the per-column mean the scaler fits
(`ScalingParameters`, spec section 3). -/
def mean (xs : List ℝ) : ℝ := xs.sum / xs.length

/-- Modelled from the spec: the population variance underlying the fitted
standard deviation. -/
def popVar (xs : List ℝ) : ℝ :=
  ((xs.map (fun x => (x - mean xs) ^ 2)).sum) / xs.length

/-- Modelled from the spec: the fitted population standard deviation. -/
def popStd (xs : List ℝ) : ℝ := Real.sqrt (popVar xs)

/-- Modelled from the spec: the scaling step, "applied as
(value − mean)/std" with no guard for std = 0 (spec sections 3 and 4.5);
the sklearn implementation that realizes it is absent from src/. -/
def standardScale (xs : List ℝ) : List ℝ :=
  xs.map (fun x => (x - mean xs) / popStd xs)

end

/-! ## Label encoding of categorical columns
(data_cleaning_new.py, section 6)

`LabelEncoder.fit_transform(col)` computes `classes_ = numpy.unique(col)`
(the distinct values in ascending order) and maps every cell to the position
of its value in `classes_`. -/

/-- The fitted `classes_` array: distinct values of the column, sorted
ascending. -/
def labelEncoderClasses (xs : List String) : List String :=
  List.insertionSort (· ≤ ·) xs.dedup

/-- Position of a value in the `classes_` list (`numpy.searchsorted` on a
sorted array of distinct values containing the key). -/
def classPos (v : String) : List String → ℕ
  | [] => 0
  | w :: t => if w = v then 0 else classPos v t + 1

/-- `LabelEncoder().fit_transform(col)`: every cell replaced by the integer
code of its value. -/
def fit_transform (xs : List String) : List ℕ :=
  xs.map (fun v => classPos v (labelEncoderClasses xs))

/-- The classification-target column emitted for `Route_Risk_Level`: the
binned labels are label-encoded (the column is in `categorical_cols`) before
the datasets are assembled. -/
def rrl_label_column (idxs : List ℚ) : List String :=
  idxs.map (fun x => (Route_Risk_Level x).getD "nan")

/-- The `Route_Risk_Level` column of `classification_df`, as emitted. -/
def classification_target (idxs : List ℚ) : List ℕ :=
  fit_transform (rrl_label_column idxs)

/-! ## Targets, feature matrix and final datasets
(data_cleaning_new.py, sections 9-10) -/

/-- `TARGET_DELAY = 'Arrival_Delay_Days'` (regression target). -/
def TARGET_DELAY : String := "Arrival_Delay_Days"

/-- `TARGET_RISK = 'Route_Risk_Level'` (classification target). -/
def TARGET_RISK : String := "Route_Risk_Level"

/-- `exclude_cols = [TARGET_DELAY, TARGET_RISK, 'Risk_Flag']`. -/
def exclude_cols : List String := [TARGET_DELAY, TARGET_RISK, "Risk_Flag"]

/-- `DataFrame.drop(columns=labels, errors=...)` restricted to the column
axis: raises `KeyError` when a label is absent and `errors='raise'`
(pandas default); with `errors='ignore'` it silently keeps filtering. -/
def dropColumns (cols labels : List String) (ignoreErrors : Bool) :
    Except String (List String) :=
  if ignoreErrors = false ∧ ∃ l ∈ labels, l ∉ cols then Except.error "KeyError"
  else Except.ok (cols.filter (fun c => decide (c ∉ labels)))

/-- Column set of `X = df.drop(columns=exclude_cols, errors='ignore')`. -/
def feature_cols (cols : List String) : List String :=
  cols.filter (fun c => decide (c ∉ exclude_cols))

/-- Column set of `regression_df = X.copy(); regression_df[TARGET_DELAY] = y_reg`. -/
def regression_df_cols (cols : List String) : List String :=
  feature_cols cols ++ [TARGET_DELAY]

/-- Column set of `classification_df = X.copy(); classification_df[TARGET_RISK] = y_clf`. -/
def classification_df_cols (cols : List String) : List String :=
  feature_cols cols ++ [TARGET_RISK]

/-! ## LPI enrichment joiner
(src/data_enrichment/integrators/add_lpi_features_csv.py) -/

/-- One country's six logistics sub-indices as loaded by `load_lpi_data`;
a field is `none` when the corresponding CSV cell was empty. -/
structure LpiRecord where
  LPI_Overall : Option ℚ
  LPI_Customs : Option ℚ
  LPI_Infrastructure : Option ℚ
  LPI_Logistics : Option ℚ
  LPI_Tracking : Option ℚ
  LPI_Timeliness : Option ℚ
deriving DecidableEq

/-- One row of `worldbank_lpi_simple.csv` as read by `csv.DictReader`. -/
structure LpiCsvRow where
  country_name : String
  year : String
  LPI_Overall : Option ℚ
  LPI_Customs : Option ℚ
  LPI_Infrastructure : Option ℚ
  LPI_Logistics : Option ℚ
  LPI_Tracking : Option ℚ
  LPI_Timeliness : Option ℚ
deriving DecidableEq

/-- The ten fixed target countries of `load_lpi_data`. -/
def target_countries : List String :=
  ["Australia", "Brazil", "China", "Germany", "India",
   "Japan", "South Africa", "United Arab Emirates",
   "United Kingdom", "United States"]

/-- The static World-Bank-name → dataset-name alias table. -/
def dataset_country : List (String × String) :=
  [("Australia", "Australia"), ("Brazil", "Brazil"), ("China", "China"),
   ("Germany", "Germany"), ("India", "India"), ("Japan", "Japan"),
   ("South Africa", "South Africa"), ("United Arab Emirates", "UAE"),
   ("United Kingdom", "UK"), ("United States", "USA")]

/-- Processing of one CSV row inside `load_lpi_data`: keep it only when its
year is 2022 and its country is a target country, store it under the alias
name, overwriting any earlier entry for the same key (dict assignment). -/
def lpiStep (acc : List (String × LpiRecord)) (row : LpiCsvRow) :
    List (String × LpiRecord) :=
  if row.year = "2022" ∧ row.country_name ∈ target_countries then
    match dataset_country.lookup row.country_name with
    | some dc =>
        (acc.filter (fun p => decide (p.1 ≠ dc))) ++
          [(dc, ⟨row.LPI_Overall, row.LPI_Customs, row.LPI_Infrastructure,
                 row.LPI_Logistics, row.LPI_Tracking, row.LPI_Timeliness⟩)]
    | none => acc
  else acc

/-- `load_lpi_data()`: the country → sub-indices dictionary, as an
association list with unique keys. -/
def load_lpi_data (rows : List LpiCsvRow) : List (String × LpiRecord) :=
  rows.foldl lpiStep []

/-- A cell of one of the 16 added LPI columns, after Python's `str()`
conversion: `blank` is the empty string written when the country had no
dictionary entry, `noneText` is the string "None" written when the country
was present but the sub-index was missing, `val q` is a number. -/
inductive LpiCell where
  | blank : LpiCell
  | noneText : LpiCell
  | val : ℚ → LpiCell
deriving DecidableEq

/-- `str(country_lpi.get(field, ''))` for one of the 12 per-country copies. -/
def cellOf (r : Option LpiRecord) (f : LpiRecord → Option ℚ) : LpiCell :=
  match r with
  | none => .blank
  | some g =>
    match f g with
    | none => .noneText
    | some q => .val q

/-- A route-level aggregate cell: computed only when both operands are
present, otherwise the empty string. -/
def aggCell (a b : Option ℚ) (g : ℚ → ℚ → ℚ) : LpiCell :=
  match a, b with
  | some x, some y => .val (g x y)
  | _, _ => .blank

/-- The 16 LPI columns added to one shipment row. -/
structure EnrichedLpi where
  Origin_LPI_Overall : LpiCell
  Origin_LPI_Customs : LpiCell
  Origin_LPI_Infrastructure : LpiCell
  Origin_LPI_Logistics : LpiCell
  Origin_LPI_Tracking : LpiCell
  Origin_LPI_Timeliness : LpiCell
  Destination_LPI_Overall : LpiCell
  Destination_LPI_Customs : LpiCell
  Destination_LPI_Infrastructure : LpiCell
  Destination_LPI_Logistics : LpiCell
  Destination_LPI_Tracking : LpiCell
  Destination_LPI_Timeliness : LpiCell
  Route_LPI_Average : LpiCell
  Route_LPI_Difference : LpiCell
  Route_Customs_LPI_Average : LpiCell
  Route_Infrastructure_Gap : LpiCell
deriving DecidableEq

/-- The per-row join of `enrich_dataset`: 6 origin copies, 6 destination
copies, and the 4 route-level aggregates. -/
def enrichRow (lpi : List (String × LpiRecord)) (origin dest : String) :
    EnrichedLpi where
  Origin_LPI_Overall := cellOf (lpi.lookup origin) (·.LPI_Overall)
  Origin_LPI_Customs := cellOf (lpi.lookup origin) (·.LPI_Customs)
  Origin_LPI_Infrastructure := cellOf (lpi.lookup origin) (·.LPI_Infrastructure)
  Origin_LPI_Logistics := cellOf (lpi.lookup origin) (·.LPI_Logistics)
  Origin_LPI_Tracking := cellOf (lpi.lookup origin) (·.LPI_Tracking)
  Origin_LPI_Timeliness := cellOf (lpi.lookup origin) (·.LPI_Timeliness)
  Destination_LPI_Overall := cellOf (lpi.lookup dest) (·.LPI_Overall)
  Destination_LPI_Customs := cellOf (lpi.lookup dest) (·.LPI_Customs)
  Destination_LPI_Infrastructure := cellOf (lpi.lookup dest) (·.LPI_Infrastructure)
  Destination_LPI_Logistics := cellOf (lpi.lookup dest) (·.LPI_Logistics)
  Destination_LPI_Tracking := cellOf (lpi.lookup dest) (·.LPI_Tracking)
  Destination_LPI_Timeliness := cellOf (lpi.lookup dest) (·.LPI_Timeliness)
  Route_LPI_Average :=
    aggCell ((lpi.lookup origin).bind (·.LPI_Overall))
      ((lpi.lookup dest).bind (·.LPI_Overall)) (fun a b => (a + b) / 2)
  Route_LPI_Difference :=
    aggCell ((lpi.lookup origin).bind (·.LPI_Overall))
      ((lpi.lookup dest).bind (·.LPI_Overall)) (fun a b => b - a)
  Route_Customs_LPI_Average :=
    aggCell ((lpi.lookup origin).bind (·.LPI_Customs))
      ((lpi.lookup dest).bind (·.LPI_Customs)) (fun a b => (a + b) / 2)
  Route_Infrastructure_Gap :=
    aggCell ((lpi.lookup origin).bind (·.LPI_Infrastructure))
      ((lpi.lookup dest).bind (·.LPI_Infrastructure)) (fun a b => b - a)

/-- The 16 cells of an enriched row, in the order of `lpi_columns`. -/
def lpiCells (e : EnrichedLpi) : List LpiCell :=
  [e.Origin_LPI_Overall, e.Origin_LPI_Customs, e.Origin_LPI_Infrastructure,
   e.Origin_LPI_Logistics, e.Origin_LPI_Tracking, e.Origin_LPI_Timeliness,
   e.Destination_LPI_Overall, e.Destination_LPI_Customs,
   e.Destination_LPI_Infrastructure, e.Destination_LPI_Logistics,
   e.Destination_LPI_Tracking, e.Destination_LPI_Timeliness,
   e.Route_LPI_Average, e.Route_LPI_Difference, e.Route_Customs_LPI_Average,
   e.Route_Infrastructure_Gap]

/-- `not row.get(col) or row[col] == ''`: only the empty string is counted
as missing (the string "None" is truthy and non-empty). -/
def cellMissing : LpiCell → Bool
  | .blank => true
  | .noneText => false
  | .val _ => false

/-- A row trips the validation when at least one of its 16 LPI cells is
missing (the scan `break`s after the first hit, so a row counts once). -/
def rowHasMissing (e : EnrichedLpi) : Bool :=
  (lpiCells e).any cellMissing

/-- The `missing_count` accumulated by the validation loop: the number of
rows with at least one missing LPI cell. -/
def missing_count (rows : List EnrichedLpi) : ℕ :=
  (rows.filter rowHasMissing).length

/-- The number of empty cells in one enriched row (what a per-cell count
would report). -/
def blankCellCount (e : EnrichedLpi) : ℕ :=
  (lpiCells e).countP cellMissing

/-- Which of the two file writes of `enrich_dataset` have happened. -/
structure FsState where
  backupWritten : Bool
  primaryWritten : Bool
deriving DecidableEq

/-- `enrich_dataset()` for a raw table of (origin, destination) rows: join,
validate, and only then back up and overwrite.  On validation failure it
raises `ValueError` carrying `missing_count` while neither the backup nor
the primary file has been written; on success it returns the row count and
the 16 added columns with both files written. -/
def enrich_dataset (raw : List (String × String))
    (lpi : List (String × LpiRecord)) : Except (ℕ × FsState) (ℕ × ℕ × FsState) :=
  let enriched := raw.map (fun p => enrichRow lpi p.1 p.2)
  if 0 < missing_count enriched then
    Except.error (missing_count enriched, ⟨false, false⟩)
  else
    Except.ok (raw.length, 16, ⟨true, true⟩)

/-- Sample LPI record for the United States (dataset name "USA"). -/
def lpiUSA : LpiRecord :=
  ⟨some (389 / 100), some (37 / 10), some (405 / 100),
   some (39 / 10), some (405 / 100), some (408 / 100)⟩

/-- Sample LPI record for the United Kingdom (dataset name "UK"). -/
def lpiUK : LpiRecord :=
  ⟨some (399 / 100), some (385 / 100), some (403 / 100),
   some (39 / 10), some (401 / 100), some (406 / 100)⟩

/-- Sample 2022 CSV row for the United States. -/
def crowUSA : LpiCsvRow :=
  ⟨"United States", "2022", some (389 / 100), some (37 / 10), some (405 / 100),
   some (39 / 10), some (405 / 100), some (408 / 100)⟩

/-- A sample raw column set without the optional `Risk_Flag` column. -/
def sample_cols : List String :=
  ["Origin_Country", "Arrival_Delay_Days", "Route_Risk_Level"]

/-! ## Helper lemmas about the label encoder -/

/-- The fitted class list is strictly sorted. -/
theorem labelEncoderClasses_sorted_lt (xs : List String) :
    (labelEncoderClasses xs).Sorted (· < ·) := by
  have hs : (labelEncoderClasses xs).Sorted (· ≤ ·) :=
    List.sorted_insertionSort _ _
  have hp : (labelEncoderClasses xs).Perm xs.dedup :=
    List.perm_insertionSort _ _
  exact hs.lt_of_le (hp.symm.nodup (List.nodup_dedup xs))

/-- In a strictly sorted list, the position of a member equals the number of
entries smaller than it. -/
theorem classPos_sorted_eq_rank {l : List String} (hs : l.Sorted (· < ·))
    {v : String} (hv : v ∈ l) :
    classPos v l = (l.filter (fun w => decide (w < v))).length := by
  induction l with
  | nil => cases hv
  | cons x t ih =>
    have hxt : ∀ w ∈ t, x < w := (List.sorted_cons.mp hs).1
    have hts : t.Sorted (· < ·) := (List.sorted_cons.mp hs).2
    rcases List.mem_cons.mp hv with he | hm
    · subst he
      have hnil : (v :: t).filter (fun w => decide (w < v)) = [] := by
        apply List.filter_eq_nil_iff.mpr
        intro a ha
        simp only [decide_eq_true_eq]
        rcases List.mem_cons.mp ha with rfl | hat
        · exact lt_irrefl a
        · exact not_lt.mpr (le_of_lt (hxt a hat))
      rw [hnil]
      simp [classPos]
    · have hvx : x ≠ v := by
        rintro rfl
        exact lt_irrefl x (hxt x hm)
      have hfc : (x :: t).filter (fun w => decide (w < v)) =
          x :: t.filter (fun w => decide (w < v)) := by
        rw [List.filter_cons, if_pos (by simpa using hxt v hm)]
      rw [hfc]
      simp only [classPos, if_neg hvx, List.length_cons]
      rw [ih hts hm]

/-- A column value occurs in the fitted class list. -/
theorem mem_labelEncoderClasses {xs : List String} {v : String} (hv : v ∈ xs) :
    v ∈ labelEncoderClasses xs :=
  (List.perm_insertionSort _ _).mem_iff.mpr (List.mem_dedup.mpr hv)

/-- `fit_transform` assigns to every cell the rank of its value among the
distinct values of the column. -/
theorem fit_transform_eq_rank (xs : List String) :
    fit_transform xs =
      xs.map (fun v => (xs.dedup.filter (fun w => decide (w < v))).length) := by
  unfold fit_transform
  apply List.map_congr_left
  intro v hv
  rw [classPos_sorted_eq_rank (labelEncoderClasses_sorted_lt xs)
    (mem_labelEncoderClasses hv)]
  exact ((List.perm_insertionSort _ _).filter _).length_eq

/-! ## Theorems for claims C1, C3, C7 -/

/-- C1 (counterexample): `Route_Risk_Level` at the left endpoint 0 yields no
label at all (pandas `cut` leaves 0 outside the first bin `(0, 0.33]`), so
x = 0 does not map to "Low" as the claim states. -/
theorem route_risk_level_at_zero_is_none :
    Route_Risk_Level 0 = none ∧ Route_Risk_Level 0 ≠ some "Low" := by
  have h : Route_Risk_Level 0 = none := by norm_num [Route_Risk_Level]
  exact ⟨h, by rw [h]; simp⟩

/-- C1 (amended): the bucket assignment is total over the half-open interval
(0, 1] — not over [0, 1] — with 0 itself receiving no label, and the boundary
points map as: 0.33 → Low, 0.331 → Medium, 0.66 → Medium, 0.661 → High,
1.0 → High. -/
theorem route_risk_level_total_on_Ioc :
    (∀ x : ℚ, 0 < x → x ≤ 1 → (Route_Risk_Level x).isSome) ∧
    Route_Risk_Level 0 = none ∧
    Route_Risk_Level (33 / 100) = some "Low" ∧
    Route_Risk_Level (331 / 1000) = some "Medium" ∧
    Route_Risk_Level (66 / 100) = some "Medium" ∧
    Route_Risk_Level (661 / 1000) = some "High" ∧
    Route_Risk_Level 1 = some "High" := by
  refine ⟨?_, by norm_num [Route_Risk_Level], by norm_num [Route_Risk_Level],
    by norm_num [Route_Risk_Level], by norm_num [Route_Risk_Level],
    by norm_num [Route_Risk_Level], by norm_num [Route_Risk_Level]⟩
  intro x hx hx1
  unfold Route_Risk_Level
  split_ifs with h1 h2 h3
  · simp
  · simp
  · simp
  · push_neg at h1 h2 h3
    have hA := h1 hx
    have hB := h2 (by linarith)
    have hC := h3 (by linarith)
    linarith

/-- Witness for C1 (amended) at x = 1/2. -/
theorem route_risk_level_total_on_Ioc_witness :
    (0 : ℚ) < 1 / 2 ∧ (1 : ℚ) / 2 ≤ 1 ∧ (Route_Risk_Level (1 / 2)).isSome :=
  ⟨by norm_num, by norm_num,
    route_risk_level_total_on_Ioc.1 (1 / 2) (by norm_num) (by norm_num)⟩

/-- C3: the concrete scenario row (shipment 2024-01-01, estimated arrival
2024-01-10, actual arrival 2024-01-12, compliance score 0.8, one prior
offense, document status "Missing", route-risk index 0.5) derives exactly the
feature values the spec states. -/
theorem scenario_row_feature_derivation :
    Planned_Transit_Days ⟨2024, 1, 1⟩ ⟨2024, 1, 10⟩ = 9 ∧
    Actual_Transit_Days ⟨2024, 1, 1⟩ ⟨2024, 1, 12⟩ = 11 ∧
    Arrival_Delay_Days ⟨2024, 1, 10⟩ ⟨2024, 1, 12⟩ = 2 ∧
    Has_Prior_Offense 1 = 1 ∧
    Compliance_Risk_Score (8 / 10) 1 = 1 / 2 ∧
    Document_Issue "Missing" = 1 ∧
    Route_Risk_Level (1 / 2) = some "Medium" := by
  refine ⟨by decide, by decide, by decide, ?_, ?_, by decide, ?_⟩
  · norm_num [Has_Prior_Offense]
  · norm_num [Compliance_Risk_Score]
  · norm_num [Route_Risk_Level]

/-- C7: the compliance-risk score is monotonically non-decreasing in the
prior-offense count (fixed compliance score) and monotonically non-increasing
in the compliance score (fixed prior-offense count). -/
theorem compliance_risk_score_monotone :
    (∀ c p p' : ℚ, p ≤ p' →
      Compliance_Risk_Score c p ≤ Compliance_Risk_Score c p') ∧
    (∀ c c' p : ℚ, c ≤ c' →
      Compliance_Risk_Score c' p ≤ Compliance_Risk_Score c p) := by
  constructor <;> intro a b d h <;> unfold Compliance_Risk_Score <;> linarith

/-- Witness for C7 at concrete scores and counts. -/
theorem compliance_risk_score_monotone_witness :
    ((1 : ℚ) ≤ 2 ∧
      Compliance_Risk_Score (1 / 2) 1 ≤ Compliance_Risk_Score (1 / 2) 2) ∧
    ((1 : ℚ) / 4 ≤ 1 / 2 ∧
      Compliance_Risk_Score (1 / 2) 3 ≤ Compliance_Risk_Score (1 / 4) 3) :=
  ⟨⟨by norm_num, compliance_risk_score_monotone.1 (1 / 2) 1 2 (by norm_num)⟩,
   ⟨by norm_num, compliance_risk_score_monotone.2 (1 / 4) (1 / 2) 3 (by norm_num)⟩⟩

/-- C4: dropping the exclusion list with `errors='ignore'` never fails (in
particular when the optional column `Risk_Flag` is absent), and the
regression and classification output column sets agree once each one's
target column is removed, with each target present only in its own view. -/
theorem regression_classification_column_swap (cols : List String)
    (h : "Risk_Flag" ∉ cols) :
    dropColumns cols exclude_cols true = Except.ok (feature_cols cols) ∧
    (regression_df_cols cols).filter (fun c => decide (c ≠ TARGET_DELAY)) =
      (classification_df_cols cols).filter (fun c => decide (c ≠ TARGET_RISK)) ∧
    TARGET_DELAY ∈ regression_df_cols cols ∧
    TARGET_RISK ∈ classification_df_cols cols ∧
    TARGET_RISK ∉ regression_df_cols cols ∧
    TARGET_DELAY ∉ classification_df_cols cols := by
  have hmem : ∀ c ∈ feature_cols cols, c ∉ exclude_cols := by
    intro c hc
    have h2 := (List.mem_filter.mp hc).2
    simpa using h2
  have hd : TARGET_DELAY ∈ exclude_cols := by simp [exclude_cols]
  have hr : TARGET_RISK ∈ exclude_cols := by simp [exclude_cols]
  have hne : TARGET_DELAY ≠ TARGET_RISK := by decide
  refine ⟨?_, ?_, ?_, ?_, ?_, ?_⟩
  · unfold dropColumns feature_cols
    rw [if_neg (by simp)]
  · have h1 : (feature_cols cols).filter (fun c => decide (c ≠ TARGET_DELAY)) =
        feature_cols cols :=
      List.filter_eq_self.mpr (fun c hc => by
        simp only [decide_eq_true_eq]
        intro he
        exact (hmem c hc) (he ▸ hd))
    have h2 : (feature_cols cols).filter (fun c => decide (c ≠ TARGET_RISK)) =
        feature_cols cols :=
      List.filter_eq_self.mpr (fun c hc => by
        simp only [decide_eq_true_eq]
        intro he
        exact (hmem c hc) (he ▸ hr))
    unfold regression_df_cols classification_df_cols
    rw [List.filter_append, List.filter_append, h1, h2]
    simp
  · simp [regression_df_cols]
  · simp [classification_df_cols]
  · intro hcon
    rcases List.mem_append.mp hcon with hA | hB
    · exact hmem _ hA hr
    · simp only [List.mem_singleton] at hB
      exact hne hB.symm
  · intro hcon
    rcases List.mem_append.mp hcon with hA | hB
    · exact hmem _ hA hd
    · simp only [List.mem_singleton] at hB
      exact hne hB

/-- Witness for C4 on a concrete column set lacking `Risk_Flag`. -/
theorem regression_classification_column_swap_witness :
    "Risk_Flag" ∉ sample_cols ∧
    (dropColumns sample_cols exclude_cols true = Except.ok (feature_cols sample_cols) ∧
    (regression_df_cols sample_cols).filter (fun c => decide (c ≠ TARGET_DELAY)) =
      (classification_df_cols sample_cols).filter (fun c => decide (c ≠ TARGET_RISK)) ∧
    TARGET_DELAY ∈ regression_df_cols sample_cols ∧
    TARGET_RISK ∈ classification_df_cols sample_cols ∧
    TARGET_RISK ∉ regression_df_cols sample_cols ∧
    TARGET_DELAY ∉ classification_df_cols sample_cols) :=
  ⟨by decide, regression_classification_column_swap sample_cols (by decide)⟩

/-- C9: the emitted classification target column holds the integer codes the
categorical encoder assigns to the binned risk labels (each cell is the rank
of its label among the column's distinct labels), not the string labels; on
the concrete index column [0.1, 0.5, 0.9] the emitted cells are [1, 2, 0]
(classes sorted ascending: "High" < "Low" < "Medium"). -/
theorem classification_target_is_integer_codes :
    (∀ idxs : List ℚ, classification_target idxs =
      (rrl_label_column idxs).map
        (fun v =>
          ((rrl_label_column idxs).dedup.filter (fun w => decide (w < v))).length)) ∧
    classification_target [1 / 10, 1 / 2, 9 / 10] = [1, 2, 0] := by
  constructor
  · intro idxs
    exact fit_transform_eq_rank _
  · have h1 : Route_Risk_Level (1 / 10) = some "Low" := by
      norm_num [Route_Risk_Level]
    have h2 : Route_Risk_Level (1 / 2) = some "Medium" := by
      norm_num [Route_Risk_Level]
    have h3 : Route_Risk_Level (9 / 10) = some "High" := by
      norm_num [Route_Risk_Level]
    have hlab : rrl_label_column [1 / 10, 1 / 2, 9 / 10] =
        ["Low", "Medium", "High"] := by
      unfold rrl_label_column
      simp only [List.map_cons, List.map_nil]
      rw [h1, h2, h3]
      rfl
    unfold classification_target fit_transform labelEncoderClasses
    rw [hlab]
    have hded : (["Low", "Medium", "High"] : List String).dedup =
        ["Low", "Medium", "High"] := by decide
    rw [hded]
    have hsort : List.insertionSort (· ≤ ·)
        (["Low", "Medium", "High"] : List String) = ["High", "Low", "Medium"] := by
      simp [List.insertionSort, List.orderedInsert]
      decide
    rw [hsort]
    decide

/-- C10: label encoding is deterministic (identical column data yields
identical codes) and each cell's code is the rank of its value in the
ascending order of the column's distinct values. -/
theorem label_encoding_deterministic_rank :
    (∀ xs ys : List String, xs = ys → fit_transform xs = fit_transform ys) ∧
    (∀ xs : List String, fit_transform xs =
      xs.map (fun v => (xs.dedup.filter (fun w => decide (w < v))).length)) :=
  ⟨fun _ _ h => h ▸ rfl, fit_transform_eq_rank⟩

/-- Witness for C10 on a concrete categorical column. -/
theorem label_encoding_deterministic_rank_witness :
    (["A", "B", "A", "C"] : List String) = ["A", "B", "A", "C"] ∧
    fit_transform ["A", "B", "A", "C"] = fit_transform ["A", "B", "A", "C"] ∧
    fit_transform ["A", "B", "A", "C"] =
      (["A", "B", "A", "C"] : List String).map
        (fun v =>
          ((["A", "B", "A", "C"] : List String).dedup.filter
            (fun w => decide (w < v))).length) :=
  ⟨rfl, label_encoding_deterministic_rank.1 _ _ rfl,
    label_encoding_deterministic_rank.2 _⟩

/-- Sum of an affine image of a list. -/
theorem sum_map_affine (xs : List ℝ) (a b : ℝ) :
    (xs.map (fun x => a * x + b)).sum = a * xs.sum + xs.length * b := by
  induction xs with
  | nil => simp
  | cons y t ih =>
    simp only [List.map_cons, List.sum_cons, ih, List.length_cons]
    push_cast
    ring

/-- Sum of a constant list. -/
theorem sum_const_list (xs : List ℝ) (c : ℝ) (h : ∀ x ∈ xs, x = c) :
    xs.sum = xs.length * c := by
  induction xs with
  | nil => simp
  | cons y t ih =>
    have hy : y = c := h y (List.mem_cons_self y t)
    have ht : ∀ x ∈ t, x = c := fun x hx => h x (List.mem_cons_of_mem y hx)
    simp only [List.sum_cons, ih ht, List.length_cons, hy]
    push_cast
    ring

/-- C5: on a degenerate (constant) column the fitted standard deviation is 0
and the scaling step applies the division (value − mean)/0 to every cell —
the divisor of the unguarded z-score formula is zero. -/
theorem scaler_zero_std_division_by_zero (xs : List ℝ) (c : ℝ)
    (hne : xs ≠ []) (hc : ∀ x ∈ xs, x = c) :
    popStd xs = 0 ∧ standardScale xs = xs.map (fun x => (x - mean xs) / 0) := by
  have hn : (xs.length : ℝ) ≠ 0 := by
    exact_mod_cast fun h => hne (List.length_eq_zero.mp h)
  have hmean : mean xs = c := by
    unfold mean
    rw [sum_const_list xs c hc]
    field_simp
  have hvar : popVar xs = 0 := by
    unfold popVar
    have hz : xs.map (fun x => (x - mean xs) ^ 2) = xs.map (fun _ => (0 : ℝ)) := by
      apply List.map_congr_left
      intro a ha
      rw [hmean, hc a ha]
      ring
    rw [hz]
    simp
  have hstd : popStd xs = 0 := by
    unfold popStd
    rw [hvar, Real.sqrt_zero]
  exact ⟨hstd, by unfold standardScale; rw [hstd]⟩

/-- Witness for C5 on the constant column [5, 5]. -/
theorem scaler_zero_std_division_by_zero_witness :
    (([(5 : ℝ), 5] : List ℝ) ≠ [] ∧ ∀ x ∈ ([(5 : ℝ), 5] : List ℝ), x = 5) ∧
    (popStd [(5 : ℝ), 5] = 0 ∧
      standardScale [(5 : ℝ), 5] =
        ([(5 : ℝ), 5] : List ℝ).map (fun x => (x - mean [(5 : ℝ), 5]) / 0)) := by
  have h1 : ([(5 : ℝ), 5] : List ℝ) ≠ [] := by simp
  have h2 : ∀ x ∈ ([(5 : ℝ), 5] : List ℝ), x = 5 := by
    intro x hx
    simp at hx
    exact hx
  exact ⟨⟨h1, h2⟩, scaler_zero_std_division_by_zero [5, 5] 5 h1 h2⟩

/-- C6: for a nonempty column of non-zero variance, the scaled column has
mean 0 and population standard deviation 1, exactly. -/
theorem standardScale_mean_zero_std_one (xs : List ℝ)
    (hne : xs ≠ []) (hv : popVar xs ≠ 0) :
    mean (standardScale xs) = 0 ∧ popStd (standardScale xs) = 1 := by
  have hn : (xs.length : ℝ) ≠ 0 := by
    exact_mod_cast fun h => hne (List.length_eq_zero.mp h)
  have hVnn : 0 ≤ popVar xs := by
    unfold popVar
    apply div_nonneg
    · apply List.sum_nonneg
      intro x hx
      obtain ⟨y, _, rfl⟩ := List.mem_map.mp hx
      positivity
    · positivity
  have hσpos : 0 < popStd xs := Real.sqrt_pos.mpr (lt_of_le_of_ne hVnn (Ne.symm hv))
  have hσ : popStd xs ≠ 0 := ne_of_gt hσpos
  have hσsq : popStd xs ^ 2 = popVar xs := by
    unfold popStd
    exact Real.sq_sqrt hVnn
  have hrw : xs.map (fun x => (x - mean xs) / popStd xs) =
      xs.map (fun x => (1 / popStd xs) * x + (-(mean xs / popStd xs))) := by
    apply List.map_congr_left
    intro a _
    ring
  have hsum : (standardScale xs).sum = 0 := by
    unfold standardScale
    rw [hrw, sum_map_affine]
    unfold mean
    field_simp
    ring
  have hmean0 : mean (standardScale xs) = 0 := by
    unfold mean
    rw [hsum, zero_div]
  have hvar1 : popVar (standardScale xs) = 1 := by
    unfold popVar
    rw [hmean0]
    unfold standardScale
    rw [List.length_map, List.map_map]
    have hrw : ((fun x : ℝ => (x - 0) ^ 2) ∘ (fun x => (x - mean xs) / popStd xs)) =
        fun x => (1 / popVar xs) * (x - mean xs) ^ 2 := by
      funext a
      simp only [Function.comp_apply, sub_zero]
      rw [div_pow, hσsq]
      ring
    rw [hrw, List.sum_map_mul_left]
    have hS : (xs.map (fun x => (x - mean xs) ^ 2)).sum = popVar xs * xs.length := by
      unfold popVar
      field_simp
    rw [hS]
    field_simp
  refine ⟨hmean0, ?_⟩
  unfold popStd
  rw [hvar1, Real.sqrt_one]

/-- Witness for C6 on the column [1, 3] (mean 2, population variance 1). -/
theorem standardScale_mean_zero_std_one_witness :
    (([(1 : ℝ), 3] : List ℝ) ≠ [] ∧ popVar [(1 : ℝ), 3] ≠ 0) ∧
    (mean (standardScale [(1 : ℝ), 3]) = 0 ∧
      popStd (standardScale [(1 : ℝ), 3]) = 1) := by
  have h1 : ([(1 : ℝ), 3] : List ℝ) ≠ [] := by simp
  have hm : mean [(1 : ℝ), 3] = 2 := by
    unfold mean
    simp
    norm_num
  have hv : popVar [(1 : ℝ), 3] = 1 := by
    unfold popVar
    rw [hm]
    simp
    norm_num
  have h2 : popVar [(1 : ℝ), 3] ≠ 0 := by
    rw [hv]
    exact one_ne_zero
  exact ⟨⟨h1, h2⟩, standardScale_mean_zero_std_one [1, 3] h1 h2⟩

/-- C2 (counterexample): with LPI data only for "USA" and one shipment to
the unmatched destination "Atlantis", the run aborts — but the reported
count is 1 (offending rows) while the offending row has 10 empty cells, and
at the moment of abort the backup has NOT been created (validation runs
before any file write). -/
theorem enrichment_abort_before_backup_counterexample :
    enrich_dataset [("USA", "Atlantis")] [("USA", lpiUSA)] =
      Except.error (1, ⟨false, false⟩) ∧
    blankCellCount (enrichRow [("USA", lpiUSA)] "USA" "Atlantis") = 10 :=
  ⟨rfl, rfl⟩

/-- C2 (amended): when any of the 16 LPI cells is empty after the join, the
run aborts carrying the count of offending ROWS (a row with one or more
empty cells counts once), and at the moment of abort neither the backup nor
the primary file has been written — the backup is created only after
validation succeeds, so the original raw file is untouched and no enriched
output is written. -/
theorem enrichment_abort_leaves_files_unwritten
    (raw : List (String × String)) (lpi : List (String × LpiRecord))
    (h : 0 < missing_count (raw.map (fun p => enrichRow lpi p.1 p.2))) :
    enrich_dataset raw lpi =
      Except.error (missing_count (raw.map (fun p => enrichRow lpi p.1 p.2)),
        ⟨false, false⟩) := by
  unfold enrich_dataset
  rw [if_pos h]

/-- Witness for C2 (amended) on the concrete aborting input. -/
theorem enrichment_abort_leaves_files_unwritten_witness :
    0 < missing_count
      (([("USA", "Atlantis")] : List (String × String)).map
        (fun p => enrichRow [("USA", lpiUSA)] p.1 p.2)) ∧
    enrich_dataset [("USA", "Atlantis")] [("USA", lpiUSA)] =
      Except.error (missing_count
        (([("USA", "Atlantis")] : List (String × String)).map
          (fun p => enrichRow [("USA", lpiUSA)] p.1 p.2)), ⟨false, false⟩) :=
  ⟨Nat.zero_lt_one, enrichment_abort_leaves_files_unwritten _ _ Nat.zero_lt_one⟩

/-- C8: `load_lpi_data` only keeps rows of year 2022 for the ten target
countries, and for a shipment row whose origin and destination both have
complete LPI records the joiner adds the six origin copies, the six
destination copies, and the four route aggregates
(overall average `(o+d)/2`, overall difference `d−o`, customs average,
infrastructure gap `d−o`). -/
theorem enrich_dataset_adds_copies_and_aggregates :
    (∀ (rows : List LpiCsvRow) (k : String) (r : LpiRecord),
      (k, r) ∈ load_lpi_data rows →
      ∃ row ∈ rows, row.year = "2022" ∧ row.country_name ∈ target_countries) ∧
    (∀ (lpi : List (String × LpiRecord)) (origin dest : String)
      (a1 a2 a3 a4 a5 a6 b1 b2 b3 b4 b5 b6 : ℚ),
      lpi.lookup origin = some ⟨some a1, some a2, some a3, some a4, some a5, some a6⟩ →
      lpi.lookup dest = some ⟨some b1, some b2, some b3, some b4, some b5, some b6⟩ →
      enrichRow lpi origin dest =
        ⟨.val a1, .val a2, .val a3, .val a4, .val a5, .val a6,
         .val b1, .val b2, .val b3, .val b4, .val b5, .val b6,
         .val ((a1 + b1) / 2), .val (b1 - a1), .val ((a2 + b2) / 2),
         .val (b3 - a3)⟩) := by
  constructor
  · have haux : ∀ (rows : List LpiCsvRow) (acc : List (String × LpiRecord))
        (p : String × LpiRecord), p ∈ rows.foldl lpiStep acc →
        p ∈ acc ∨ ∃ row ∈ rows, row.year = "2022" ∧
          row.country_name ∈ target_countries := by
      intro rows
      induction rows with
      | nil => intro acc p hp; exact Or.inl hp
      | cons row t ih =>
        intro acc p hp
        simp only [List.foldl_cons] at hp
        rcases ih (lpiStep acc row) p hp with hacc | ⟨row', hrow', hP⟩
        · have hstep : p ∈ lpiStep acc row → p ∈ acc ∨
              (row.year = "2022" ∧ row.country_name ∈ target_countries) := by
            intro hq
            unfold lpiStep at hq
            by_cases hcond : row.year = "2022" ∧ row.country_name ∈ target_countries
            · rw [if_pos hcond] at hq
              cases hdc : dataset_country.lookup row.country_name with
              | none =>
                rw [hdc] at hq
                exact Or.inl hq
              | some dc =>
                rw [hdc] at hq
                rcases List.mem_append.mp hq with hf | _
                · exact Or.inl (List.mem_filter.mp hf).1
                · exact Or.inr hcond
            · rw [if_neg hcond] at hq
              exact Or.inl hq
          rcases hstep hacc with h1 | h2
          · exact Or.inl h1
          · exact Or.inr ⟨row, List.mem_cons_self row t, h2⟩
        · exact Or.inr ⟨row', List.mem_cons_of_mem row hrow', hP⟩
    intro rows k r hm
    rcases haux rows [] (k, r) hm with hnil | hfound
    · cases hnil
    · exact hfound
  · intro lpi origin dest a1 a2 a3 a4 a5 a6 b1 b2 b3 b4 b5 b6 h1 h2
    unfold enrichRow
    rw [h1, h2]
    rfl

/-- Witness for C8: a loaded 2022 United-States row, and a USA → UK shipment
enriched from complete records. -/
theorem enrich_dataset_adds_copies_and_aggregates_witness :
    (("USA", lpiUSA) ∈ load_lpi_data [crowUSA] ∧
      ∃ row ∈ [crowUSA], row.year = "2022" ∧
        row.country_name ∈ target_countries) ∧
    (([("USA", lpiUSA), ("UK", lpiUK)] : List (String × LpiRecord)).lookup "USA" =
        some ⟨some (389 / 100), some (37 / 10), some (405 / 100),
          some (39 / 10), some (405 / 100), some (408 / 100)⟩ ∧
      enrichRow [("USA", lpiUSA), ("UK", lpiUK)] "USA" "UK" =
        ⟨.val (389 / 100), .val (37 / 10), .val (405 / 100), .val (39 / 10),
         .val (405 / 100), .val (408 / 100),
         .val (399 / 100), .val (385 / 100), .val (403 / 100), .val (39 / 10),
         .val (401 / 100), .val (406 / 100),
         .val ((389 / 100 + 399 / 100) / 2), .val (399 / 100 - 389 / 100),
         .val ((37 / 10 + 385 / 100) / 2), .val (403 / 100 - 405 / 100)⟩) := by
  have hmem : ("USA", lpiUSA) ∈ load_lpi_data [crowUSA] :=
    List.mem_singleton.mpr rfl
  refine ⟨⟨hmem, enrich_dataset_adds_copies_and_aggregates.1 [crowUSA] "USA" lpiUSA hmem⟩,
    rfl, ?_⟩
  exact enrich_dataset_adds_copies_and_aggregates.2
    [("USA", lpiUSA), ("UK", lpiUK)] "USA" "UK"
    (389 / 100) (37 / 10) (405 / 100) (39 / 10) (405 / 100) (408 / 100)
    (399 / 100) (385 / 100) (403 / 100) (39 / 10) (401 / 100) (406 / 100)
    rfl rfl

end SupplyChain
